import Mathlib

/-!
Shallow embedding of `pkg/server/filters/wrap.go` (panic-recovery filter of
elliotxx/apiserver) and proofs of the spec claims about it.

The Go code is modelled as pure Lean functions over an explicit environment:
* side effects (klog records, the abort metric, `runtime.HandleError`, and
  response writes performed through `http.Error`) become an ordered trace of
  `Event` values;
* a Go panic value (an `interface{}`) becomes a `GoValue`; the sentinel
  `http.ErrAbortHandler` is the distinguished constructor
  `GoValue.errAbortHandler`, and Go interface identity `==` against it is
  structural equality with that constructor;
* the goroutine stack text that `runtime.Stack(buf, false)` would produce is
  passed in as a `String` parameter of the environment;
* the external decorator `httplog.WithLogging` is a parameter of type
  `Handler → Handler` (its code lives outside this repository);
* the `runtime.ReallyCrash` re-raise policy of `runtime.HandleCrash` is a
  `Bool` parameter.
-/

namespace Spec2Proof

/-- An HTTP request as read by the filter: only `req.Method` and
`req.RequestURI` are consulted by `wrap.go`. -/
structure Request where
  method : String
  requestURI : String
deriving DecidableEq, Repr

/-- The resolved request identity produced by
`request.RequestInfoResolver.NewRequestInfo`; the filter treats it as opaque
and only forwards it to the metrics recorder, so two representative fields
suffice. -/
structure RequestInfo where
  verb : String
  path : String
deriving DecidableEq, Repr

/-- Response headers (`w.Header()`), modelled as an association list. -/
abbrev Header := List (String × String)

/-- The `auditinternal.HeaderAuditID` constant: the name of the response
header that carries the audit ID. -/
def HeaderAuditID : String := "Audit-ID"

/-- `w.Header().Get(key)`: first value stored under the key, or the empty
string when the key is absent. -/
def headerGet (h : Header) (key : String) : String :=
  match h.find? (fun p => p.1 == key) with
  | some p => p.2
  | none => ""

/-- A Go `interface{}` value recovered from a panic.
`errAbortHandler` is the one sentinel value `http.ErrAbortHandler`;
`errorMsg` is any other error value carrying a message; `wrapErr` is an
error produced by wrapping another error (as `fmt.Errorf` with a wrap verb
would); `strVal` is a plain string panic value. -/
inductive GoValue where
  | errAbortHandler : GoValue
  | errorMsg (msg : String) : GoValue
  | wrapErr (msg : String) (inner : GoValue) : GoValue
  | strVal (s : String) : GoValue
deriving DecidableEq, Repr

/-- The textual form of a panic value, as `%v` formatting would render it
(`http.ErrAbortHandler` formats as its fixed message). -/
def GoValue.text : GoValue → String
  | .errAbortHandler => "net/http: abort Handler"
  | .errorMsg m => m
  | .wrapErr m _ => m
  | .strVal s => s

/-- `currentStack` from `wrap.go`: a 50 KiB buffer is filled by
`runtime.Stack(stack, false)` with the current goroutine's stack text (the
`false` argument excludes all other goroutines; that text is the
`goroutineStack` parameter here), truncated to the buffer size, and returned
with a leading newline. -/
def currentStack (goroutineStack : String) : String :=
  "\n" ++ String.mk (goroutineStack.data.take (50 * 1024))

/-- One observable side effect of the crash handler, in program order:
the three distinct `klog.Errorf` call sites, the
`metrics.RecordRequestAbort` call, the `runtime.HandleError` report built
from the `"timeout or abort while handling"` format, and a response write
performed through `http.Error` (status code and message). -/
inductive Event where
  | logStack (method uri auditID errText stack : String) : Event
  | logAbort (method uri auditID errText : String) : Event
  | recordRequestAbort (req : Request) (info : Option RequestInfo) : Event
  | handleErrorTimeout (method uri auditID : String) : Event
  | respWrite (status : Nat) (body : String) : Event
  | logGeneric (method uri auditID : String) : Event
deriving DecidableEq, Repr

/-- The fixed body text passed to `http.Error` on the generic path. -/
def panicResponseBody : String :=
  "This request caused apiserver to panic. Look in the logs for details."

/-- `http.StatusInternalServerError`. -/
def statusInternalServerError : Nat := 500

/-- A `request.RequestInfoResolver`: `NewRequestInfo` returns either an
error or a `RequestInfo`. -/
abbrev RequestInfoResolver := Request → Except String RequestInfo

/-- The crash-handler closure passed to `withPanicRecovery` by
`WithPanicRecovery` in `wrap.go`: read the audit ID from the response
header, unconditionally log the stack record, then branch on identity with
`http.ErrAbortHandler`; on the abort path log the abort record, record the
abort metric (with or without resolved request info, depending on whether
the resolver failed) and hand a timeout/abort report to
`runtime.HandleError`; on the generic path call `http.Error` with the fixed
500 message and log the summary record. -/
def crashHandler (resolver : RequestInfoResolver) (goroutineStack : String)
    (hdr : Header) (req : Request) (err : GoValue) : List Event :=
  let auditID := headerGet hdr HeaderAuditID
  let stackLog := Event.logStack req.method req.requestURI auditID
      (GoValue.text err) (currentStack goroutineStack)
  if err = GoValue.errAbortHandler then
    let abortLog := Event.logAbort req.method req.requestURI auditID
        (GoValue.text err)
    let metric :=
      match resolver req with
      | .error _ => Event.recordRequestAbort req none
      | .ok info => Event.recordRequestAbort req (some info)
    [stackLog, abortLog, metric,
      Event.handleErrorTimeout req.method req.requestURI auditID]
  else
    [stackLog,
      Event.respWrite statusInternalServerError panicResponseBody,
      Event.logGeneric req.method req.requestURI auditID]

/-- How a handler invocation ends: normal return, or a panic carrying a
value. -/
inductive Outcome where
  | normal : Outcome
  | panicked (v : GoValue) : Outcome
deriving DecidableEq, Repr

/-- The observable result of serving one request: the trace of emitted
events and the way the invocation ended. -/
structure HandlerResult where
  events : List Event
  outcome : Outcome
deriving DecidableEq, Repr

/-- An `http.Handler`: `ServeHTTP(w, req)` reads the response-header state
and the request and yields a trace and an outcome. -/
abbrev Handler := Header → Request → HandlerResult

/-- The crash-handler callback type taken by `withPanicRecovery`. -/
abbrev CrashCallback := Header → Request → GoValue → List Event

/-- `withPanicRecovery` from `wrap.go`: first applies the external
`httplog.WithLogging` decorator (the `withLogging` parameter) once to the
inner handler, then returns a handler that runs the decorated handler under
a deferred `runtime.HandleCrash(crash)`. `HandleCrash` invokes the callback
once with the recovered value when and only when the protected call
panicked, and then either suppresses the panic or (when
`runtime.ReallyCrash` holds, the `reallyCrash` parameter) re-raises it. -/
def withPanicRecovery (withLogging : Handler → Handler) (reallyCrash : Bool)
    (handler : Handler) (crash : CrashCallback) : Handler :=
  let logged := withLogging handler
  fun hdr req =>
    match logged hdr req with
    | ⟨evs, Outcome.normal⟩ => ⟨evs, Outcome.normal⟩
    | ⟨evs, Outcome.panicked v⟩ =>
        ⟨evs ++ crash hdr req v,
          if reallyCrash then Outcome.panicked v else Outcome.normal⟩

/-- `WithPanicRecovery` from `wrap.go`: the public entry point, wiring the
concrete crash handler (built from the request-info resolver) into
`withPanicRecovery`. -/
def WithPanicRecovery (withLogging : Handler → Handler) (reallyCrash : Bool)
    (goroutineStack : String) (resolver : RequestInfoResolver)
    (handler : Handler) : Handler :=
  withPanicRecovery withLogging reallyCrash handler
    (fun hdr req v => crashHandler resolver goroutineStack hdr req v)

/-- The status/body pairs written to the response writer, extracted from a
trace. -/
def respWrites (evs : List Event) : List (Nat × String) :=
  evs.filterMap fun e =>
    match e with
    | Event.respWrite s b => some (s, b)
    | _ => none

/-- Recognizer for the unconditional stack-log record. -/
def Event.isLogStack : Event → Bool
  | .logStack .. => true
  | _ => false

/-- Recognizer for the abort-metric call. -/
def Event.isAbortMetric : Event → Bool
  | .recordRequestAbort .. => true
  | _ => false

/-- Recognizer for a response write. -/
def Event.isRespWrite : Event → Bool
  | .respWrite .. => true
  | _ => false

/-- The audit-ID field carried by a log or report record, when it has one. -/
def Event.auditField : Event → Option String
  | .logStack _ _ a _ _ => some a
  | .logAbort _ _ a _ => some a
  | .recordRequestAbort _ _ => none
  | .handleErrorTimeout _ _ a => some a
  | .respWrite _ _ => none
  | .logGeneric _ _ a => some a

/-- Modelled from the spec: `WrapWithRequestLogging` (`httplog.WithLogging`)
is an external decorator whose code is outside this repository; for concrete
scenarios it is taken as a transparent pass-through. -/
def specWithLogging : Handler → Handler := fun h => h

/-- The resolved info the abort metric is recorded with: `some info` when
the resolver succeeds, `none` when it fails. -/
def resolveOpt (resolver : RequestInfoResolver) (req : Request) :
    Option RequestInfo :=
  match resolver req with
  | .error _ => none
  | .ok info => some info

/-- A request-logging decorator whose own execution panics (its code is
external to this repository, so nothing in `wrap.go` constrains it): it
stands in for `httplog.WithLogging` to probe whether the recovery guard
protects the decorator's execution. -/
def badLoggingDecorator : Handler → Handler :=
  fun _ => fun _ _ =>
    ⟨[], Outcome.panicked (GoValue.strVal "logging wrapper panicked")⟩

/-- An inner handler that always completes normally with no events. -/
def innerOkHandler : Handler := fun _ _ => ⟨[], Outcome.normal⟩

example :
    crashHandler (fun _ => Except.error "e") "gs" [] ⟨"GET", "/x"⟩
      (GoValue.strVal "boom")
    = [Event.logStack "GET" "/x" "" "boom" (currentStack "gs"),
       Event.respWrite 500 panicResponseBody,
       Event.logGeneric "GET" "/x" ""] := by
  decide

example :
    crashHandler (fun _ => Except.error "e") "gs" [] ⟨"GET", "/x"⟩
      GoValue.errAbortHandler
    = [Event.logStack "GET" "/x" "" "net/http: abort Handler"
         (currentStack "gs"),
       Event.logAbort "GET" "/x" "" "net/http: abort Handler",
       Event.recordRequestAbort ⟨"GET", "/x"⟩ none,
       Event.handleErrorTimeout "GET" "/x" ""] := by
  decide

/-- Claim C1: for every panic value V other than `http.ErrAbortHandler`, the
wrapped handler appends to the inner trace exactly one unconditional
stack-log record, then exactly one response write — status 500 with the
fixed body `"This request caused apiserver to panic. Look in the logs for
details."` — then exactly one generic summary log record, and nothing
else. -/
theorem c1_generic_panic_fixed_response
    (wl : Handler → Handler) (rc : Bool) (gs : String)
    (resolver : RequestInfoResolver) (h : Handler) (hdr : Header)
    (req : Request) (v : GoValue) (evs : List Event)
    (hrun : wl h hdr req = ⟨evs, Outcome.panicked v⟩)
    (hv : v ≠ GoValue.errAbortHandler) :
    (WithPanicRecovery wl rc gs resolver h hdr req).events
      = evs ++
        [Event.logStack req.method req.requestURI
           (headerGet hdr HeaderAuditID) (GoValue.text v) (currentStack gs),
         Event.respWrite 500 panicResponseBody,
         Event.logGeneric req.method req.requestURI
           (headerGet hdr HeaderAuditID)] := by
  simp [WithPanicRecovery, withPanicRecovery, hrun, crashHandler, hv,
    statusInternalServerError]

/-- Witness for C1: the concrete scenario of the spec — the inner handler
panics with the string `"boom"` — produces the stack log containing
`"boom"`, the fixed 500 response, and the summary log. -/
theorem c1_generic_panic_fixed_response_witness :
    (WithPanicRecovery specWithLogging false "gs"
        (fun _ => Except.error "e")
        (fun _ _ => ⟨[], Outcome.panicked (GoValue.strVal "boom")⟩)
        [] ⟨"GET", "/x"⟩).events
      = [Event.logStack "GET" "/x" "" "boom" (currentStack "gs"),
         Event.respWrite 500 panicResponseBody,
         Event.logGeneric "GET" "/x" ""] := by
  simpa using
    c1_generic_panic_fixed_response specWithLogging false "gs"
      (fun _ => Except.error "e")
      (fun _ _ => ⟨[], Outcome.panicked (GoValue.strVal "boom")⟩)
      [] ⟨"GET", "/x"⟩ (GoValue.strVal "boom") [] rfl (by decide)

/-- Claim C2: when the panic value is the `http.ErrAbortHandler` sentinel,
the crash layer appends exactly one unconditional stack-log record, one
abort-specific log record, one abort-metric call (with the resolver's
result) and one rate-limited timeout/abort report, and writes nothing to
the response writer. -/
theorem c2_abort_path_no_response
    (wl : Handler → Handler) (rc : Bool) (gs : String)
    (resolver : RequestInfoResolver) (h : Handler) (hdr : Header)
    (req : Request) (evs : List Event)
    (hrun : wl h hdr req = ⟨evs, Outcome.panicked GoValue.errAbortHandler⟩) :
    (WithPanicRecovery wl rc gs resolver h hdr req).events
      = evs ++
        [Event.logStack req.method req.requestURI
           (headerGet hdr HeaderAuditID) "net/http: abort Handler"
           (currentStack gs),
         Event.logAbort req.method req.requestURI
           (headerGet hdr HeaderAuditID) "net/http: abort Handler",
         Event.recordRequestAbort req (resolveOpt resolver req),
         Event.handleErrorTimeout req.method req.requestURI
           (headerGet hdr HeaderAuditID)]
    ∧ respWrites
        (crashHandler resolver gs hdr req GoValue.errAbortHandler) = [] := by
  constructor
  · simp [WithPanicRecovery, withPanicRecovery, hrun, crashHandler,
      resolveOpt, GoValue.text]
    cases hres : resolver req <;> simp [hres]
  · cases hres : resolver req <;>
      simp [crashHandler, respWrites, hres]

/-- Witness for C2: a concrete abort-sentinel panic with a failing resolver
yields exactly the four abort-path records and no response write. -/
theorem c2_abort_path_no_response_witness :
    (WithPanicRecovery specWithLogging false "gs"
        (fun _ => Except.error "e")
        (fun _ _ => ⟨[], Outcome.panicked GoValue.errAbortHandler⟩)
        [] ⟨"GET", "/x"⟩).events
      = [Event.logStack "GET" "/x" "" "net/http: abort Handler"
           (currentStack "gs"),
         Event.logAbort "GET" "/x" "" "net/http: abort Handler",
         Event.recordRequestAbort ⟨"GET", "/x"⟩ none,
         Event.handleErrorTimeout "GET" "/x" ""]
    ∧ respWrites
        (crashHandler (fun _ => Except.error "e") "gs" [] ⟨"GET", "/x"⟩
          GoValue.errAbortHandler) = [] := by
  simpa using
    c2_abort_path_no_response specWithLogging false "gs"
      (fun _ => Except.error "e")
      (fun _ _ => ⟨[], Outcome.panicked GoValue.errAbortHandler⟩)
      [] ⟨"GET", "/x"⟩ [] rfl

/-- Claim C3: the recovery guard around the (logging-wrapped) handler: when
the protected handler completes normally the wrapped handler completes
normally with the inner trace unchanged — no event attributable to this
layer — and when it panics with v, exactly one crash-callback invocation's
events are appended to the trace. -/
theorem c3_crash_callback_iff_panic
    (wl : Handler → Handler) (rc : Bool) (h : Handler)
    (crash : CrashCallback) (hdr : Header) (req : Request)
    (evs : List Event) :
    ((wl h hdr req = ⟨evs, Outcome.normal⟩ →
        withPanicRecovery wl rc h crash hdr req = ⟨evs, Outcome.normal⟩))
    ∧ (∀ v, wl h hdr req = ⟨evs, Outcome.panicked v⟩ →
        (withPanicRecovery wl rc h crash hdr req).events
          = evs ++ crash hdr req v) := by
  constructor
  · intro hrun
    simp [withPanicRecovery, hrun]
  · intro v hrun
    simp [withPanicRecovery, hrun]

/-- Witness for C3: a normally completing handler passes through the guard
untouched. -/
theorem c3_crash_callback_iff_panic_witness :
    withPanicRecovery specWithLogging false
        (fun _ _ => ⟨[], Outcome.normal⟩)
        (fun _ _ _ => [Event.logGeneric "GET" "/x" ""]) [] ⟨"GET", "/x"⟩
      = ⟨[], Outcome.normal⟩ := by
  exact (c3_crash_callback_iff_panic specWithLogging false
    (fun _ _ => ⟨[], Outcome.normal⟩)
    (fun _ _ _ => [Event.logGeneric "GET" "/x" ""]) [] ⟨"GET", "/x"⟩ []).1 rfl

/-- Claim C4: on every crash-handler invocation, whatever the panic value,
the first emitted event is the unconditional forensic stack-log record
(method, URI, audit ID, the value's textual form, the captured stack), and
no further stack-log record follows — classification and all class-specific
effects come after it. -/
theorem c4_stack_log_emitted_first (resolver : RequestInfoResolver)
    (gs : String) (hdr : Header) (req : Request) (v : GoValue) :
    ∃ t, crashHandler resolver gs hdr req v
        = Event.logStack req.method req.requestURI
            (headerGet hdr HeaderAuditID) (GoValue.text v)
            (currentStack gs) :: t
      ∧ t.countP Event.isLogStack = 0 := by
  by_cases hv : v = GoValue.errAbortHandler
  · subst hv
    cases hres : resolver req with
    | error e =>
        exact ⟨[Event.logAbort req.method req.requestURI
                  (headerGet hdr HeaderAuditID) (GoValue.text .errAbortHandler),
                Event.recordRequestAbort req none,
                Event.handleErrorTimeout req.method req.requestURI
                  (headerGet hdr HeaderAuditID)],
          by simp [crashHandler, hres],
          by simp [List.countP_cons, List.countP_nil, Event.isLogStack]⟩
    | ok info =>
        exact ⟨[Event.logAbort req.method req.requestURI
                  (headerGet hdr HeaderAuditID) (GoValue.text .errAbortHandler),
                Event.recordRequestAbort req (some info),
                Event.handleErrorTimeout req.method req.requestURI
                  (headerGet hdr HeaderAuditID)],
          by simp [crashHandler, hres],
          by simp [List.countP_cons, List.countP_nil, Event.isLogStack]⟩
  · exact ⟨[Event.respWrite statusInternalServerError panicResponseBody,
            Event.logGeneric req.method req.requestURI
              (headerGet hdr HeaderAuditID)],
      by simp [crashHandler, hv],
      by simp [List.countP_cons, List.countP_nil, Event.isLogStack]⟩

/-- Claim C5: on the abort path a resolver error is swallowed — the abort
metric is then recorded with `none` for the info — while a successful
resolution records the metric with the resolved info; in both cases the
trace ends with exactly one rate-limited timeout/abort report, emitted
after the metric call. -/
theorem c5_resolver_error_does_not_propagate (resolver : RequestInfoResolver)
    (gs : String) (hdr : Header) (req : Request) :
    (∀ e, resolver req = Except.error e →
      crashHandler resolver gs hdr req GoValue.errAbortHandler
        = [Event.logStack req.method req.requestURI
             (headerGet hdr HeaderAuditID) "net/http: abort Handler"
             (currentStack gs),
           Event.logAbort req.method req.requestURI
             (headerGet hdr HeaderAuditID) "net/http: abort Handler",
           Event.recordRequestAbort req none,
           Event.handleErrorTimeout req.method req.requestURI
             (headerGet hdr HeaderAuditID)])
    ∧ (∀ info, resolver req = Except.ok info →
      crashHandler resolver gs hdr req GoValue.errAbortHandler
        = [Event.logStack req.method req.requestURI
             (headerGet hdr HeaderAuditID) "net/http: abort Handler"
             (currentStack gs),
           Event.logAbort req.method req.requestURI
             (headerGet hdr HeaderAuditID) "net/http: abort Handler",
           Event.recordRequestAbort req (some info),
           Event.handleErrorTimeout req.method req.requestURI
             (headerGet hdr HeaderAuditID)]) := by
  constructor
  · intro e hres
    simp [crashHandler, hres, GoValue.text]
  · intro info hres
    simp [crashHandler, hres, GoValue.text]

/-- Witness for C5: a concrete resolver that always fails yields the abort
metric with absent info and exactly one report afterwards. -/
theorem c5_resolver_error_does_not_propagate_witness :
    crashHandler (fun _ => Except.error "e") "gs" [] ⟨"GET", "/x"⟩
        GoValue.errAbortHandler
      = [Event.logStack "GET" "/x" "" "net/http: abort Handler"
           (currentStack "gs"),
         Event.logAbort "GET" "/x" "" "net/http: abort Handler",
         Event.recordRequestAbort ⟨"GET", "/x"⟩ none,
         Event.handleErrorTimeout "GET" "/x" ""] := by
  simpa using
    (c5_resolver_error_does_not_propagate (fun _ => Except.error "e") "gs"
      [] ⟨"GET", "/x"⟩).1 "e" rfl

/-- Claim C6: `currentStack` is total and returns a single leading newline
followed by the current goroutine's stack text truncated to at most
50 KiB = 51200 bytes; the whole result is at most 51201 bytes, and when the
stack text fits inside 50 KiB no truncation happens at all. -/
theorem c6_currentStack_total_bounded (gs : String) :
    (currentStack gs).data.head? = some (Char.ofNat 10)
    ∧ (currentStack gs).length ≤ 50 * 1024 + 1
    ∧ (currentStack gs).data.tail = gs.data.take (50 * 1024)
    ∧ (gs.length ≤ 50 * 1024 → currentStack gs = "\n" ++ gs) := by
  refine ⟨rfl, ?_, rfl, ?_⟩
  · have h1 : (currentStack gs).length
        = (gs.data.take (50 * 1024)).length + 1 := rfl
    rw [h1, List.length_take]
    omega
  · intro hle
    obtain ⟨l⟩ := gs
    have h2 : l.take (50 * 1024) = l := List.take_of_length_le hle
    simp [currentStack, h2]

/-- Witness for C6: a short stack text is carried over verbatim after the
leading newline. -/
theorem c6_currentStack_total_bounded_witness :
    ("goroutine 1" : String).length ≤ 50 * 1024
    ∧ currentStack "goroutine 1" = "\n" ++ "goroutine 1" :=
  ⟨by decide,
   (c6_currentStack_total_bounded "goroutine 1").2.2.2 (by decide)⟩

/-- Claim C7: the response bytes written by the crash handler do not depend
on the panic value: any two non-sentinel values produce identical response
writes, namely the single fixed 500 write, and the sentinel produces no
write at all — the raw failure value and the stack never reach the
client-visible response. -/
theorem c7_response_independent_of_panic_value
    (resolver : RequestInfoResolver) (gs : String) (hdr : Header)
    (req : Request) :
    (∀ v1 v2, v1 ≠ GoValue.errAbortHandler → v2 ≠ GoValue.errAbortHandler →
      respWrites (crashHandler resolver gs hdr req v1)
        = respWrites (crashHandler resolver gs hdr req v2))
    ∧ (∀ v, v ≠ GoValue.errAbortHandler →
      respWrites (crashHandler resolver gs hdr req v)
        = [(500, panicResponseBody)])
    ∧ respWrites (crashHandler resolver gs hdr req GoValue.errAbortHandler)
        = [] := by
  have hgen : ∀ v, v ≠ GoValue.errAbortHandler →
      respWrites (crashHandler resolver gs hdr req v)
        = [(500, panicResponseBody)] := by
    intro v hv
    simp [crashHandler, respWrites, hv, statusInternalServerError]
  refine ⟨fun v1 v2 h1 h2 => (hgen v1 h1).trans (hgen v2 h2).symm, hgen, ?_⟩
  cases hres : resolver req <;> simp [crashHandler, respWrites, hres]

/-- Witness for C7: two different concrete panic values produce the same
single fixed 500 response write. -/
theorem c7_response_independent_of_panic_value_witness :
    respWrites (crashHandler (fun _ => Except.error "e") "gs" []
        ⟨"GET", "/x"⟩ (GoValue.strVal "boom"))
      = respWrites (crashHandler (fun _ => Except.error "e") "gs" []
        ⟨"GET", "/x"⟩ (GoValue.errorMsg "secret db password"))
    ∧ respWrites (crashHandler (fun _ => Except.error "e") "gs" []
        ⟨"GET", "/x"⟩ (GoValue.strVal "boom"))
      = [(500, panicResponseBody)] :=
  ⟨(c7_response_independent_of_panic_value (fun _ => Except.error "e") "gs"
      [] ⟨"GET", "/x"⟩).1 (GoValue.strVal "boom")
      (GoValue.errorMsg "secret db password") (by decide) (by decide),
   (c7_response_independent_of_panic_value (fun _ => Except.error "e") "gs"
      [] ⟨"GET", "/x"⟩).2.1 (GoValue.strVal "boom") (by decide)⟩

/-- Claim C8, counterexample: in `withPanicRecovery` the logging decorator
is applied to the inner handler first and the deferred crash guard wraps
the decorated handler, so the guard does protect the logging wrapper's own
execution — contradicting the claim that it does not. Concretely: the inner
handler completes normally, the logging wrapper itself panics, and the
wrapped handler nevertheless recovers (normal outcome) with the crash
handler's events emitted. -/
theorem c8_logging_decorator_counterexample :
    innerOkHandler [] ⟨"GET", "/x"⟩ = ⟨[], Outcome.normal⟩
    ∧ badLoggingDecorator innerOkHandler [] ⟨"GET", "/x"⟩
        = ⟨[], Outcome.panicked (GoValue.strVal "logging wrapper panicked")⟩
    ∧ WithPanicRecovery badLoggingDecorator false "gs"
        (fun _ => Except.error "e") innerOkHandler [] ⟨"GET", "/x"⟩
      = ⟨crashHandler (fun _ => Except.error "e") "gs" [] ⟨"GET", "/x"⟩
           (GoValue.strVal "logging wrapper panicked"),
         Outcome.normal⟩ := by
  refine ⟨rfl, rfl, ?_⟩
  decide

/-- Claim C8, amended: the request-logging decorator is applied exactly
once to the inner handler, at wrap time, but it sits inside the recovery
guard: the guard's deferred crash handling also protects the logging
wrapper's own execution, so a panic raised inside the decorated handler —
even when the inner handler alone would complete normally — still invokes
the crash handler. -/
theorem c8_logging_decorator_inside_guard
    (wl : Handler → Handler) (rc : Bool) (gs : String)
    (resolver : RequestInfoResolver) (h : Handler) (hdr : Header)
    (req : Request) (evs : List Event) (v : GoValue)
    (_hinner : h hdr req = ⟨[], Outcome.normal⟩)
    (hwl : wl h hdr req = ⟨evs, Outcome.panicked v⟩) :
    (WithPanicRecovery wl rc gs resolver h hdr req).events
      = evs ++ crashHandler resolver gs hdr req v := by
  simp [WithPanicRecovery, withPanicRecovery, hwl]

/-- Witness for the amended C8: the panicking decorator around the normal
inner handler triggers the crash handler. -/
theorem c8_logging_decorator_inside_guard_witness :
    (WithPanicRecovery badLoggingDecorator false "gs"
        (fun _ => Except.error "e") innerOkHandler [] ⟨"GET", "/x"⟩).events
      = crashHandler (fun _ => Except.error "e") "gs" [] ⟨"GET", "/x"⟩
          (GoValue.strVal "logging wrapper panicked") := by
  simpa using
    c8_logging_decorator_inside_guard badLoggingDecorator false "gs"
      (fun _ => Except.error "e") innerOkHandler [] ⟨"GET", "/x"⟩ []
      (GoValue.strVal "logging wrapper panicked") rfl rfl

/-- Claim C9: classification is by Go interface identity with the one
sentinel value: the abort metric fires exactly for the sentinel itself,
while any error that merely carries the sentinel's message text and any
error wrapping the sentinel are classified generic and take the 500
path. -/
theorem c9_identity_only_classification (resolver : RequestInfoResolver)
    (gs : String) (hdr : Header) (req : Request) :
    (∀ v, (crashHandler resolver gs hdr req v).any Event.isAbortMetric
        = true ↔ v = GoValue.errAbortHandler)
    ∧ (∀ m, (crashHandler resolver gs hdr req
        (GoValue.errorMsg m)).any Event.isRespWrite = true)
    ∧ (∀ m i, (crashHandler resolver gs hdr req
        (GoValue.wrapErr m i)).any Event.isRespWrite = true) := by
  have habort : ∀ v, v ≠ GoValue.errAbortHandler →
      (crashHandler resolver gs hdr req v).any Event.isAbortMetric
        = false := by
    intro v hv
    simp [crashHandler, hv, Event.isAbortMetric]
  refine ⟨?_, ?_, ?_⟩
  · intro v
    constructor
    · intro hany
      by_contra hv
      rw [habort v hv] at hany
      cases hany
    · intro hv
      subst hv
      cases hres : resolver req <;>
        simp [crashHandler, hres, Event.isAbortMetric]
  · intro m
    simp [crashHandler, Event.isRespWrite]
  · intro m i
    simp [crashHandler, Event.isRespWrite]

/-- Claim C10: the audit ID is a single snapshot of the response header
taken at entry — every record the crash handler emits that carries an audit
ID carries exactly `headerGet hdr HeaderAuditID` — and an absent header
yields the empty string. -/
theorem c10_single_audit_snapshot (resolver : RequestInfoResolver)
    (gs : String) (hdr : Header) (req : Request) (v : GoValue) :
    (∀ e, e ∈ crashHandler resolver gs hdr req v →
      ∀ s, Event.auditField e = some s → s = headerGet hdr HeaderAuditID)
    ∧ (hdr.find? (fun p => p.1 == HeaderAuditID) = none →
      headerGet hdr HeaderAuditID = "") := by
  constructor
  · intro e he s hs
    by_cases hv : v = GoValue.errAbortHandler
    · subst hv
      cases hres : resolver req <;>
        · simp [crashHandler, hres] at he
          rcases he with h | h | h | h <;> subst h <;>
            simp [Event.auditField] at hs <;> exact hs.symm
    · simp [crashHandler, hv] at he
      rcases he with h | h | h <;> subst h <;>
        simp [Event.auditField] at hs <;> exact hs.symm
  · intro hnone
    simp [headerGet, hnone]

/-- Witness for C10: with no headers at all, the summary record in a
concrete crash trace carries the empty audit ID, which is what the header
lookup returns. -/
theorem c10_single_audit_snapshot_witness :
    ("" : String) = headerGet [] HeaderAuditID
    ∧ headerGet [] HeaderAuditID = "" :=
  ⟨(c10_single_audit_snapshot (fun _ => Except.error "e") "gs" []
      ⟨"GET", "/x"⟩ (GoValue.strVal "boom")).1
      (Event.logGeneric "GET" "/x" "") (by decide) "" rfl,
   (c10_single_audit_snapshot (fun _ => Except.error "e") "gs" []
      ⟨"GET", "/x"⟩ (GoValue.strVal "boom")).2 rfl⟩

end Spec2Proof
